import Mathlib

/-!
Shallow embedding of the client-side interaction layer in `src/scripts.js`:
scroll-driven nav-link activation (`updateActiveNavLink`, lines 37-55), the
anchor-link click handler (lines 11-30), the debounce combinator (lines
236-246) and the scroll-listener registrations (lines 57, 165, 249-250), the
IntersectionObserver reveal callback (lines 110-116), the mobile-menu handlers
(lines 81-102), and the touch-move overscroll guard (lines 261-275).

DOM state is modelled explicitly: a nav link is its `href` attribute (absent
allowed, as `getAttribute` may return null) plus the presence of the `active`
class; a section is its `id` attribute plus `offsetTop`/`offsetHeight`; pixel
quantities are naturals (scroll offsets are nonnegative), except where the
code subtracts (`offsetTop - headerHeight`), which is carried out in `Int`.
-/

namespace Scripts

/-- A `<section>` element as read by `updateActiveNavLink`: its `id`
attribute (`getAttribute` may return null), `offsetTop` and `offsetHeight`,
read live from layout on every tick. -/
structure Sect where
  id : Option String
  offsetTop : Nat
  offsetHeight : Nat
deriving DecidableEq

/-- A nav link (`.nav-links a`): its `href` attribute and whether its class
list currently contains `active`. -/
structure NavLink where
  href : Option String
  active : Bool
deriving DecidableEq

/-- The JS template literal `#${sectionId}` where `sectionId` is
`getAttribute('id')`: a null id stringifies to `"null"`. -/
def hashOfId : Option String → String
  | some s => "#" ++ s
  | none => "#" ++ "null"

/-- The test on line 46: `scrollPosition >= sectionTop && scrollPosition <
sectionTop + sectionHeight`, i.e. the probe lies in the half-open interval
`[offsetTop, offsetTop + offsetHeight)`. -/
def probeIn (scrollPosition : Nat) (s : Sect) : Bool :=
  decide (scrollPosition ≥ s.offsetTop) &&
    decide (scrollPosition < s.offsetTop + s.offsetHeight)

/-- The body of the inner `navLinks.forEach` (lines 47-52) for one link:
`classList.remove('active')`, then `classList.add('active')` when the link's
`href` attribute equals the section's `#${sectionId}` string. -/
def syncLink (hash : String) (link : NavLink) : NavLink :=
  let cleared : NavLink := { link with active := false }
  if link.href = some hash then { cleared with active := true } else cleared

/-- One iteration of the outer `sections.forEach` (lines 41-54): when the
probe falls inside the section, resynchronise every nav link against that
section's id; otherwise the links are untouched. -/
def applySect (scrollPosition : Nat) (links : List NavLink) (s : Sect) :
    List NavLink :=
  if probeIn scrollPosition s then links.map (syncLink (hashOfId s.id))
  else links

/-- `updateActiveNavLink` (lines 37-55): probe at `scrollY + 100`, folded over
the document's sections in order. -/
def updateActiveNavLink (sections : List Sect) (scrollY : Nat)
    (links : List NavLink) : List NavLink :=
  sections.foldl (applySect (scrollY + 100)) links

/-- The last section in document order whose interval contains the probe:
later iterations of the `forEach` overwrite earlier ones, so this is the
section whose id decides the final link state. -/
def lastProbeMatch (p : Nat) : List Sect → Option Sect
  | [] => none
  | s :: ss =>
      match lastProbeMatch p ss with
      | some s' => some s'
      | none => if probeIn p s then some s else none

/-- Resynchronise every link against one hash string (the effect of a
matched section's inner `forEach`). -/
def setActiveByHash (hash : String) (links : List NavLink) : List NavLink :=
  links.map (syncLink hash)

/-- Remove the `active` class from every nav link (line 27 and line 48). -/
def clearActive (links : List NavLink) : List NavLink :=
  links.map fun l => { l with active := false }

/-- `this.classList.add('active')` (line 28): set `active` on the link at the
clicked position. -/
def addActiveAt : List NavLink → Nat → List NavLink
  | [], _ => []
  | l :: ls, 0 => { l with active := true } :: ls
  | l :: ls, Nat.succ n => l :: addActiveAt ls n

/-- An element that `document.querySelector('#id')` can resolve: its `id`
attribute and its `offsetTop`. -/
structure Elem where
  id : String
  offsetTop : Nat
deriving DecidableEq

/-- `document.querySelector(href)` for a fragment href: the first element in
document order whose id selector `#id` equals the fragment. -/
def querySelectorHash (frag : String) (elems : List Elem) : Option Elem :=
  elems.find? fun e => "#" ++ e.id == frag

/-- Observable outcome of the anchor-link click handler: whether
`preventDefault` ran, the `window.scrollTo` top argument if a scroll was
initiated, and the nav links after the handler returns. -/
structure ClickResult where
  preventedDefault : Bool
  scrolledTo : Option Int
  links : List NavLink
deriving DecidableEq

/-- The click handler attached to each anchor-href nav link (lines 11-30):
`preventDefault` unconditionally (line 12); if `querySelector(href)` finds a
target, scroll to `target.offsetTop - headerHeight` and activate the clicked
link after clearing all links (lines 17-29); otherwise nothing further
happens. `idx` is the position of the clicked link among the nav links. -/
def handleNavClick (links : List NavLink) (idx : Nat) (href : String)
    (elems : List Elem) (headerHeight : Nat) : ClickResult :=
  match querySelectorHash href elems with
  | some target =>
      { preventedDefault := true
        scrolledTo := some ((target.offsetTop : Int) - (headerHeight : Int))
        links := addActiveAt (clearActive links) idx }
  | none =>
      { preventedDefault := true
        scrolledTo := none
        links := links }

/-- The hrefs of a link list; every activation operation preserves this. -/
def hrefList (links : List NavLink) : List (Option String) :=
  links.map fun l => l.href

/-- Number of links currently carrying the `active` class. -/
def countActive (links : List NavLink) : Nat :=
  (links.filter fun l => l.active).length

/-- Number of links whose href attribute equals `some h`. -/
def countHref (links : List NavLink) (h : String) : Nat :=
  (links.filter fun l => decide (l.href = some h)).length

/-- No two nav links carry the same fragment href (absent hrefs may
repeat). -/
abbrev UniqueHrefs (links : List NavLink) : Prop :=
  List.Pairwise (fun a b : Option String => a = b → a = none) (hrefList links)

/-- The two operations that mutate nav-link activation: a (debounced or
direct) scroll tick running `updateActiveNavLink`, and a click on an
anchor-href nav link. -/
inductive NavEvent where
  | scrollTick (sections : List Sect) (scrollY : Nat)
  | clickNav (idx : Nat) (href : String) (elems : List Elem)
      (headerHeight : Nat)

/-- Effect of one event on the nav links. -/
def navStep (links : List NavLink) : NavEvent → List NavLink
  | NavEvent.scrollTick ss y => updateActiveNavLink ss y links
  | NavEvent.clickNav idx href elems hh =>
      (handleNavClick links idx href elems hh).links

/-- One invocation of a debounced wrapper: its time and the arguments it was
called with. -/
structure Call (α : Type) where
  time : Nat
  args : α
deriving DecidableEq

/-- Executions produced by `debounce(func, wait)` (lines 236-246) on a
chronological list of calls to the wrapped function. Each call clears the
pending timeout and schedules `func` with its own arguments at `time + wait`;
a pending timeout is superseded (cleared before firing) when the next call
arrives at or before its due time, and fires otherwise. The result lists the
actual runs of `func`, each with its firing time and arguments. -/
def debounceRuns (wait : Nat) {α : Type} : List (Call α) → List (Call α)
  | [] => []
  | [c] => [⟨c.time + wait, c.args⟩]
  | c :: c' :: cs =>
      if c.time + wait < c'.time then
        ⟨c.time + wait, c.args⟩ :: debounceRuns wait (c' :: cs)
      else debounceRuns wait (c' :: cs)

/-- The two functions the scroll listeners dispatch to. -/
inductive ScrollFn where
  | updateActiveNavLink
  | updateHeader
deriving DecidableEq

/-- A registered scroll listener: which function it runs and whether it is
the debounced wrapper. -/
structure ScrollListener where
  fn : ScrollFn
  debounced : Bool
deriving DecidableEq

/-- The `window.addEventListener('scroll', ...)` registrations in
`src/scripts.js`, in registration order: line 57 (`updateActiveNavLink`,
direct), line 165 (`updateHeader`, direct), line 249
(`debounce(updateActiveNavLink, 10)`), line 250
(`debounce(updateHeader, 10)`). -/
def scrollListeners : List ScrollListener :=
  [⟨ScrollFn.updateActiveNavLink, false⟩, ⟨ScrollFn.updateHeader, false⟩,
   ⟨ScrollFn.updateActiveNavLink, true⟩, ⟨ScrollFn.updateHeader, true⟩]

/-- Number of times one listener runs its function for scroll events at the
given times: a direct listener runs once per event; a debounced listener runs
once per execution of its `debounce(·, 10)` wrapper. -/
def listenerInvocations (ts : List Nat) (l : ScrollListener) : Nat :=
  if l.debounced then
    (debounceRuns 10 (ts.map fun t => (⟨t, ()⟩ : Call Unit))).length
  else ts.length

/-- Total number of invocations of `fn` produced by scroll events at times
`ts`, summed over all registered scroll listeners for `fn`. -/
def scrollInvocationCount (fn : ScrollFn) (ts : List Nat) : Nat :=
  ((scrollListeners.filter fun l => l.fn == fn).map
    (listenerInvocations ts)).sum

/-- One IntersectionObserver entry for an observed element, as seen by the
callback: whether the element is intersecting. The observer is configured
with threshold 0.1 and rootMargin `0px 0px -50px 0px` (lines 105-108); those
options decide when the browser delivers entries, and the callback reads only
`entry.isIntersecting`. -/
structure IntersectionEntry where
  isIntersecting : Bool
deriving DecidableEq

/-- Class state of one observed element: whether its class list contains
`fade-in` or `visible` (the revealed state is the `visible` class). -/
structure RevealTarget where
  fadeIn : Bool
  visible : Bool
deriving DecidableEq

/-- The observer callback (lines 110-116) for one element and one entry:
if the entry is intersecting, `classList.add('fade-in', 'visible')`;
otherwise nothing. No code path ever removes these classes. -/
def observerStep (s : RevealTarget) (e : IntersectionEntry) : RevealTarget :=
  if e.isIntersecting then { s with fadeIn := true, visible := true } else s

/-- Mobile-menu class state: whether `.nav-links` (the panel) and
`.mobile-menu-btn` (the toggle button) carry the `active` class. -/
structure MenuState where
  panelActive : Bool
  btnActive : Bool
deriving DecidableEq

/-- Menu-relevant pointer interactions. A click on the toggle button or on an
in-menu nav link also bubbles to the document-level listener (line 96), but
its `contains` guard makes that a no-op for those targets, so each
interaction is one state change. On a nav-link click the link's own handling
(the smooth-scroll handler, registered on the link first at line 11) has
already been dispatched before the menu-close listener (line 89) runs. -/
inductive MenuEvent where
  | toggleClick
  | navLinkClick
  | outsideClick
deriving DecidableEq

/-- Effect of one interaction on the menu classes: the toggle handler (lines
82-85) toggles both classes; the nav-link close handler (lines 88-93) and the
outside-click handler (lines 96-101) remove both classes. -/
def menuStep (s : MenuState) : MenuEvent → MenuState
  | MenuEvent.toggleClick => ⟨!s.panelActive, !s.btnActive⟩
  | MenuEvent.navLinkClick => ⟨false, false⟩
  | MenuEvent.outsideClick => ⟨false, false⟩

/-- The closed menu: neither element carries `active`. -/
def menuClosed : MenuState := ⟨false, false⟩

/-- The touchmove handler's guard (lines 266-275): with
`deltaY = touchStartY - touchY`, `preventDefault` runs iff
`(scrollY === 0 && deltaY < 0) ||
 (innerHeight + scrollY >= document.body.offsetHeight && deltaY > 0)`. -/
def touchMovePrevents (scrollY innerHeight bodyOffsetHeight : Nat)
    (touchStartY touchY : Int) : Bool :=
  let deltaY : Int := touchStartY - touchY
  (decide (scrollY = 0) && decide (deltaY < 0)) ||
    (decide (innerHeight + scrollY ≥ bodyOffsetHeight) && decide (deltaY > 0))

theorem syncLink_eq (hash : String) (l : NavLink) :
    syncLink hash l = ⟨l.href, decide (l.href = some hash)⟩ := by
  unfold syncLink
  by_cases h : l.href = some hash
  · simp [h]
  · simp [h]

theorem syncLink_href (hash : String) (l : NavLink) :
    (syncLink hash l).href = l.href := by
  rw [syncLink_eq]

theorem syncLink_syncLink (h h' : String) (l : NavLink) :
    syncLink h (syncLink h' l) = syncLink h l := by
  simp [syncLink_eq]

theorem setActiveByHash_setActiveByHash (h h' : String)
    (links : List NavLink) :
    setActiveByHash h (setActiveByHash h' links) = setActiveByHash h links := by
  unfold setActiveByHash
  rw [List.map_map]
  have hfun : syncLink h ∘ syncLink h' = syncLink h :=
    funext fun l => syncLink_syncLink h h' l
  rw [hfun]

theorem setActiveByHash_applySect (h : String) (p : Nat)
    (links : List NavLink) (s : Sect) :
    setActiveByHash h (applySect p links s) = setActiveByHash h links := by
  unfold applySect
  by_cases hp : probeIn p s
  · rw [if_pos hp]
    exact setActiveByHash_setActiveByHash h (hashOfId s.id) links
  · rw [if_neg hp]

theorem lastProbeMatch_cons (p : Nat) (t : Sect) (ts : List Sect) :
    lastProbeMatch p (t :: ts) =
      match lastProbeMatch p ts with
      | some s' => some s'
      | none => if probeIn p t then some t else none := rfl

theorem updateActive_char (p : Nat) (sections : List Sect) :
    ∀ links : List NavLink,
      sections.foldl (applySect p) links =
        match lastProbeMatch p sections with
        | none => links
        | some s => setActiveByHash (hashOfId s.id) links := by
  induction sections with
  | nil => intro links; rfl
  | cons s ss ih =>
      intro links
      simp only [List.foldl_cons]
      rw [ih (applySect p links s), lastProbeMatch_cons]
      cases hm : lastProbeMatch p ss with
      | none =>
          by_cases hp : probeIn p s
          · simp [applySect, hp, setActiveByHash]
          · simp [applySect, hp]
      | some s' =>
          exact setActiveByHash_applySect (hashOfId s'.id) p links s

theorem lastProbeMatch_none (p : Nat) (sections : List Sect)
    (h : ∀ s ∈ sections, probeIn p s = false) :
    lastProbeMatch p sections = none := by
  induction sections with
  | nil => rfl
  | cons s ss ih =>
      unfold lastProbeMatch
      rw [ih fun t ht => h t (List.mem_cons_of_mem s ht)]
      simp [h s (List.mem_cons_self s ss)]

theorem lastProbeMatch_spec (p : Nat) (sections : List Sect) (s : Sect)
    (h : lastProbeMatch p sections = some s) :
    s ∈ sections ∧ probeIn p s = true := by
  induction sections with
  | nil => cases h
  | cons t ts ih =>
      rw [lastProbeMatch_cons] at h
      cases hm : lastProbeMatch p ts with
      | some s' =>
          rw [hm] at h
          injection h with h'
          subst h'
          rcases ih hm with ⟨h1, h2⟩
          exact ⟨List.mem_cons_of_mem t h1, h2⟩
      | none =>
          rw [hm] at h
          by_cases hp : probeIn p t
          · rw [if_pos hp] at h
            injection h with h'
            subst h'
            exact ⟨List.mem_cons_self t ts, hp⟩
          · rw [if_neg hp] at h
            cases h

theorem lastProbeMatch_isSome (p : Nat) (sections : List Sect) (s₀ : Sect)
    (hmem : s₀ ∈ sections) (hp : probeIn p s₀ = true) :
    ∃ s, lastProbeMatch p sections = some s := by
  induction sections with
  | nil => cases hmem
  | cons t ts ih =>
      unfold lastProbeMatch
      cases hm : lastProbeMatch p ts with
      | some s' => exact ⟨s', rfl⟩
      | none =>
          rcases List.mem_cons.mp hmem with h1 | h2
          · subst h1
            rw [if_pos hp]
            exact ⟨s₀, rfl⟩
          · rcases ih h2 with ⟨s, hs⟩
            rw [hm] at hs
            cases hs

theorem setActiveByHash_eq_clear (h : String) (links : List NavLink)
    (hno : ∀ l ∈ links, ¬ l.href = some h) :
    setActiveByHash h links = clearActive links := by
  induction links with
  | nil => rfl
  | cons l ls ih =>
      have h1 : ¬ l.href = some h := hno l (List.mem_cons_self l ls)
      have h2 := ih fun t ht => hno t (List.mem_cons_of_mem l ht)
      simp only [setActiveByHash, clearActive, List.map_cons] at h2 ⊢
      rw [syncLink_eq, h2]
      simp [h1]

theorem countActive_clearActive (links : List NavLink) :
    countActive (clearActive links) = 0 := by
  induction links with
  | nil => rfl
  | cons l ls ih =>
      simp only [countActive, clearActive, List.map_cons, List.filter] at ih ⊢
      exact ih

/-- Claim C1: on a scroll tick whose probe position `scrollY + 100` lies in
no section's interval `[offsetTop, offsetTop + offsetHeight)`,
`updateActiveNavLink` leaves every nav link's active state unchanged, so a
previously active link persists and is not cleared. -/
theorem scroll_gap_preserves_links (sections : List Sect) (scrollY : Nat)
    (links : List NavLink)
    (hgap : ∀ s ∈ sections, probeIn (scrollY + 100) s = false) :
    updateActiveNavLink sections scrollY links = links := by
  unfold updateActiveNavLink
  rw [updateActive_char, lastProbeMatch_none _ _ hgap]

theorem scroll_gap_preserves_links_witness :
    (∀ s ∈ [(⟨some "about", 500, 300⟩ : Sect)], probeIn (0 + 100) s = false) ∧
      updateActiveNavLink [⟨some "about", 500, 300⟩] 0
        [⟨some "#about", true⟩, ⟨some "#projects", false⟩] =
        [⟨some "#about", true⟩, ⟨some "#projects", false⟩] :=
  ⟨by decide,
    scroll_gap_preserves_links [⟨some "about", 500, 300⟩] 0
      [⟨some "#about", true⟩, ⟨some "#projects", false⟩] (by decide)⟩

/-- Claim C10: on a scroll tick whose probe position `scrollY + 100` lies
inside a section whose id matches no nav link's href fragment (including a
section with no id attribute, whose id stringifies to `null`), the active
class is removed from every nav link and set on none: zero links remain
active, and the previously active link does not persist. -/
theorem scroll_unmatched_section_clears_links (sections : List Sect)
    (scrollY : Nat) (links : List NavLink) (s₀ : Sect)
    (hmem : s₀ ∈ sections) (hp : probeIn (scrollY + 100) s₀ = true)
    (hnomatch : ∀ s ∈ sections, probeIn (scrollY + 100) s = true →
      ∀ l ∈ links, ¬ l.href = some (hashOfId s.id)) :
    updateActiveNavLink sections scrollY links = clearActive links ∧
      countActive (updateActiveNavLink sections scrollY links) = 0 := by
  have hmain : updateActiveNavLink sections scrollY links = clearActive links := by
    unfold updateActiveNavLink
    rw [updateActive_char]
    rcases lastProbeMatch_isSome _ _ _ hmem hp with ⟨s, hs⟩
    rw [hs]
    rcases lastProbeMatch_spec _ _ _ hs with ⟨hsmem, hsp⟩
    exact setActiveByHash_eq_clear _ _ (hnomatch s hsmem hsp)
  exact ⟨hmain, by rw [hmain]; exact countActive_clearActive links⟩

theorem addActiveAt_get (ls : List NavLink) (idx : Nat) :
    (addActiveAt ls idx).get? idx =
      (ls.get? idx).map fun l => { l with active := true } := by
  induction ls generalizing idx with
  | nil => rfl
  | cons l ls ih =>
      cases idx with
      | zero => rfl
      | succ n => exact ih n

/-- Claim C3: a click on a nav link whose href is the same-page fragment
`#T` where an element with id `T` exists suppresses default navigation,
initiates a scroll to exactly `target.offsetTop - headerHeight`, and sets the
clicked link's active class within the handler itself (so synchronously,
before any scroll-driven recomputation can run). -/
theorem click_existing_target (links : List NavLink) (idx : Nat) (T : String)
    (elems : List Elem) (headerHeight : Nat) (target : Elem)
    (hidx : idx < links.length)
    (hfind : querySelectorHash ("#" ++ T) elems = some target) :
    (handleNavClick links idx ("#" ++ T) elems headerHeight).preventedDefault
        = true ∧
      (handleNavClick links idx ("#" ++ T) elems headerHeight).scrolledTo =
        some ((target.offsetTop : Int) - (headerHeight : Int)) ∧
      (handleNavClick links idx ("#" ++ T) elems headerHeight).links.get? idx =
        some ⟨(links.get ⟨idx, hidx⟩).href, true⟩ := by
  unfold handleNavClick
  rw [hfind]
  refine ⟨rfl, rfl, ?_⟩
  show (addActiveAt (clearActive links) idx).get? idx = _
  rw [addActiveAt_get]
  unfold clearActive
  rw [List.get?_map, List.get?_eq_get hidx]
  rfl

theorem click_existing_target_witness :
    (0 < ([⟨some "#about", false⟩, ⟨some "#projects", false⟩] :
        List NavLink).length) ∧
      querySelectorHash ("#" ++ "about") [(⟨"about", 500⟩ : Elem)] =
        some ⟨"about", 500⟩ ∧
      (handleNavClick [⟨some "#about", false⟩, ⟨some "#projects", false⟩] 0
          ("#" ++ "about") [⟨"about", 500⟩] 64).preventedDefault = true ∧
      (handleNavClick [⟨some "#about", false⟩, ⟨some "#projects", false⟩] 0
          ("#" ++ "about") [⟨"about", 500⟩] 64).scrolledTo =
        some (436 : Int) ∧
      (handleNavClick [⟨some "#about", false⟩, ⟨some "#projects", false⟩] 0
          ("#" ++ "about") [⟨"about", 500⟩] 64).links.get? 0 =
        some ⟨some "#about", true⟩ := by
  have h := click_existing_target
    [⟨some "#about", false⟩, ⟨some "#projects", false⟩] 0 "about"
    [⟨"about", 500⟩] 64 ⟨"about", 500⟩ (by decide) (by decide)
  exact ⟨by decide, by decide, h.1, h.2.1.trans (by decide),
    h.2.2.trans (by decide)⟩

/-- Claim C5: a click on a nav link whose href is the same-page fragment
`#T` where no element with id `T` exists is a no-op with the default still
suppressed: `preventDefault` ran (line 12 precedes the lookup), no scroll is
initiated, and no link's active state changes; the handler is a total
function of its inputs, so no exception arises on this path (the guard on
line 17 skips everything else). -/
theorem click_missing_target (links : List NavLink) (idx : Nat) (T : String)
    (elems : List Elem) (headerHeight : Nat)
    (hfind : querySelectorHash ("#" ++ T) elems = none) :
    handleNavClick links idx ("#" ++ T) elems headerHeight =
      { preventedDefault := true, scrolledTo := none, links := links } := by
  unfold handleNavClick
  rw [hfind]

theorem click_missing_target_witness :
    querySelectorHash ("#" ++ "missing") [(⟨"about", 500⟩ : Elem)] = none ∧
      handleNavClick [⟨some "#about", true⟩, ⟨some "#missing", false⟩] 1
          ("#" ++ "missing") [⟨"about", 500⟩] 64 =
        { preventedDefault := true, scrolledTo := none,
          links := [⟨some "#about", true⟩, ⟨some "#missing", false⟩] } :=
  ⟨by decide,
    click_missing_target [⟨some "#about", true⟩, ⟨some "#missing", false⟩] 1
      "missing" [⟨"about", 500⟩] 64 (by decide)⟩

theorem scroll_unmatched_section_clears_links_witness :
    ((⟨none, 0, 300⟩ : Sect) ∈ [(⟨none, 0, 300⟩ : Sect)]) ∧
      probeIn (50 + 100) (⟨none, 0, 300⟩ : Sect) = true ∧
      updateActiveNavLink [⟨none, 0, 300⟩] 50
          [⟨some "#about", true⟩, ⟨some "#projects", false⟩] =
        clearActive [⟨some "#about", true⟩, ⟨some "#projects", false⟩] :=
  ⟨by decide, by decide,
    (scroll_unmatched_section_clears_links [⟨none, 0, 300⟩] 50
      [⟨some "#about", true⟩, ⟨some "#projects", false⟩] ⟨none, 0, 300⟩
      (by decide) (by decide) (by decide)).1⟩

theorem hrefList_setActiveByHash (h : String) (links : List NavLink) :
    hrefList (setActiveByHash h links) = hrefList links := by
  unfold hrefList setActiveByHash
  rw [List.map_map]
  have hfun : ((fun l : NavLink => l.href) ∘ syncLink h) =
      fun l : NavLink => l.href :=
    funext fun l => syncLink_href h l
  rw [hfun]

theorem hrefList_clearActive (links : List NavLink) :
    hrefList (clearActive links) = hrefList links := by
  unfold hrefList clearActive
  rw [List.map_map]
  have hfun : ((fun l : NavLink => l.href) ∘
      fun l : NavLink => { l with active := false }) =
      fun l : NavLink => l.href :=
    funext fun l => rfl
  rw [hfun]

theorem hrefList_addActiveAt (ls : List NavLink) (idx : Nat) :
    hrefList (addActiveAt ls idx) = hrefList ls := by
  induction ls generalizing idx with
  | nil => rfl
  | cons l ls ih =>
      cases idx with
      | zero => rfl
      | succ n =>
          have ih' := ih n
          simp only [addActiveAt, hrefList, List.map_cons] at ih' ⊢
          rw [ih']

theorem hrefList_updateActiveNavLink (ss : List Sect) (y : Nat)
    (links : List NavLink) :
    hrefList (updateActiveNavLink ss y links) = hrefList links := by
  unfold updateActiveNavLink
  rw [updateActive_char]
  cases hm : lastProbeMatch (y + 100) ss with
  | none => rfl
  | some s => exact hrefList_setActiveByHash (hashOfId s.id) links

theorem hrefList_navStep (links : List NavLink) (e : NavEvent) :
    hrefList (navStep links e) = hrefList links := by
  cases e with
  | scrollTick ss y => exact hrefList_updateActiveNavLink ss y links
  | clickNav idx href elems hh =>
      show hrefList (handleNavClick links idx href elems hh).links =
        hrefList links
      unfold handleNavClick
      cases querySelectorHash href elems with
      | some t =>
          show hrefList (addActiveAt (clearActive links) idx) = hrefList links
          rw [hrefList_addActiveAt, hrefList_clearActive]
      | none => rfl

theorem countActive_cons (l : NavLink) (ls : List NavLink) :
    countActive (l :: ls) = (if l.active then 1 else 0) + countActive ls := by
  unfold countActive
  cases hl : l.active with
  | true => simp [List.filter_cons, hl, Nat.add_comm]
  | false => simp [List.filter_cons, hl]

theorem countHref_cons (l : NavLink) (ls : List NavLink) (h : String) :
    countHref (l :: ls) h =
      (if l.href = some h then 1 else 0) + countHref ls h := by
  unfold countHref
  by_cases hl : l.href = some h
  · simp [List.filter_cons, hl, Nat.add_comm]
  · simp [List.filter_cons, hl]

theorem countActive_addActiveAt (ls : List NavLink) (idx : Nat) :
    countActive (addActiveAt ls idx) ≤ countActive ls + 1 := by
  induction ls generalizing idx with
  | nil => simp [addActiveAt, countActive]
  | cons l ls ih =>
      cases idx with
      | zero =>
          show countActive (⟨l.href, true⟩ :: ls) ≤ countActive (l :: ls) + 1
          rw [countActive_cons, countActive_cons]
          cases hl : l.active <;> simp <;> omega
      | succ n =>
          show countActive (l :: addActiveAt ls n) ≤ countActive (l :: ls) + 1
          rw [countActive_cons, countActive_cons]
          have := ih n
          omega

theorem countActive_setActiveByHash (h : String) (links : List NavLink) :
    countActive (setActiveByHash h links) = countHref links h := by
  induction links with
  | nil => rfl
  | cons l ls ih =>
      show countActive (syncLink h l :: setActiveByHash h ls) = _
      rw [countActive_cons, ih, countHref_cons, syncLink_eq]
      by_cases hl : l.href = some h
      · simp [hl]
      · simp [hl]

theorem countHref_le_one (links : List NavLink) (h : String)
    (huniq : UniqueHrefs links) : countHref links h ≤ 1 := by
  induction links with
  | nil => simp [countHref]
  | cons l ls ih =>
      have hpw := List.pairwise_cons.mp huniq
      have hpw1 : ∀ b ∈ hrefList ls, l.href = b → l.href = none := hpw.1
      rw [countHref_cons]
      by_cases hl : l.href = some h
      · have hzero : countHref ls h = 0 := by
          unfold countHref
          rw [List.length_eq_zero, List.filter_eq_nil]
          intro a ha
          simp only [decide_eq_true_eq]
          intro hah
          have hb : a.href ∈ hrefList ls := List.mem_map_of_mem _ ha
          have hnone := hpw1 a.href hb (hl.trans hah.symm)
          rw [hnone] at hl
          cases hl
        simp [hl, hzero]
      · rw [if_neg hl]
        have := ih hpw.2
        omega

theorem navStep_atMostOne (links : List NavLink) (e : NavEvent)
    (huniq : UniqueHrefs links) (hc : countActive links ≤ 1) :
    countActive (navStep links e) ≤ 1 := by
  cases e with
  | scrollTick ss y =>
      show countActive (updateActiveNavLink ss y links) ≤ 1
      unfold updateActiveNavLink
      rw [updateActive_char]
      cases hm : lastProbeMatch (y + 100) ss with
      | none => exact hc
      | some s =>
          rw [countActive_setActiveByHash]
          exact countHref_le_one links _ huniq
  | clickNav idx href elems hh =>
      show countActive (handleNavClick links idx href elems hh).links ≤ 1
      unfold handleNavClick
      cases querySelectorHash href elems with
      | some t =>
          show countActive (addActiveAt (clearActive links) idx) ≤ 1
          have h1 := countActive_addActiveAt (clearActive links) idx
          rw [countActive_clearActive] at h1
          exact h1
      | none => exact hc

/-- Claim C2: among the nav links, at most one ever carries the `active`
class. Both mutating operations (the scroll-driven `updateActiveNavLink` and
the anchor-click handler) clear `active` before setting it, so from any
start state with at most one active link and pairwise-distinct link hrefs,
no sequence of scroll ticks and clicks can reach a state with two
simultaneously active links. -/
theorem nav_at_most_one_active (init : List NavLink) (events : List NavEvent)
    (huniq : UniqueHrefs init) (hc : countActive init ≤ 1) :
    countActive (events.foldl navStep init) ≤ 1 := by
  induction events generalizing init with
  | nil => exact hc
  | cons e es ih =>
      simp only [List.foldl_cons]
      apply ih
      · show List.Pairwise _ (hrefList (navStep init e))
        rw [hrefList_navStep]
        exact huniq
      · exact navStep_atMostOne init e huniq hc

theorem nav_at_most_one_active_witness :
    UniqueHrefs [⟨some "#about", false⟩, ⟨some "#projects", false⟩,
        ⟨none, false⟩] ∧
      countActive [⟨some "#about", false⟩, ⟨some "#projects", false⟩,
        ⟨none, false⟩] ≤ 1 ∧
      countActive
        ([NavEvent.scrollTick [⟨some "about", 0, 300⟩] 50,
          NavEvent.clickNav 1 "#projects" [⟨"projects", 800⟩] 64].foldl
          navStep
          [⟨some "#about", false⟩, ⟨some "#projects", false⟩,
            ⟨none, false⟩]) ≤ 1 :=
  ⟨by decide, by decide,
    nav_at_most_one_active
      [⟨some "#about", false⟩, ⟨some "#projects", false⟩, ⟨none, false⟩]
      [NavEvent.scrollTick [⟨some "about", 0, 300⟩] 50,
        NavEvent.clickNav 1 "#projects" [⟨"projects", 800⟩] 64]
      (by decide) (by decide)⟩

theorem debounceRuns_chain {α : Type} (wait : Nat) (c : Call α)
    (cs : List (Call α))
    (hburst : List.Chain (fun a b => b.time ≤ a.time + wait) c cs) :
    debounceRuns wait (c :: cs) =
      [⟨((c :: cs).getLast (List.cons_ne_nil c cs)).time + wait,
        ((c :: cs).getLast (List.cons_ne_nil c cs)).args⟩] := by
  induction cs generalizing c with
  | nil => rfl
  | cons c' cs' ih =>
      rcases List.chain_cons.mp hburst with ⟨h1, h2⟩
      have hnot : ¬ c.time + wait < c'.time := by omega
      show debounceRuns wait (c :: c' :: cs') = _
      rw [debounceRuns, if_neg hnot, ih c' h2,
        List.getLast_cons (List.cons_ne_nil c' cs')]

/-- Claim C6: for any action arguments and any burst of `N ≥ 1` calls to the
debounced wrapper in which each call arrives within `wait` of the previous
one, the underlying action runs exactly once, at the last call's time plus
`wait`, with the last call's arguments; every superseded call produces no
run at all. -/
theorem debounce_single_trailing_run {α : Type} (wait : Nat) (c : Call α)
    (cs : List (Call α))
    (hburst : List.Chain (fun a b => b.time ≤ a.time + wait) c cs) :
    debounceRuns wait (c :: cs) =
      [⟨((c :: cs).getLast (List.cons_ne_nil c cs)).time + wait,
        ((c :: cs).getLast (List.cons_ne_nil c cs)).args⟩] :=
  debounceRuns_chain wait c cs hburst

theorem debounce_single_trailing_run_witness :
    List.Chain (fun a b : Call Nat => b.time ≤ a.time + 10) ⟨0, 1⟩
        [⟨5, 2⟩, ⟨12, 3⟩] ∧
      debounceRuns 10 [(⟨0, 1⟩ : Call Nat), ⟨5, 2⟩, ⟨12, 3⟩] = [⟨22, 3⟩] :=
  ⟨List.Chain.cons (by decide) (List.Chain.cons (by decide) List.Chain.nil),
    (debounce_single_trailing_run 10 ⟨0, 1⟩ [⟨5, 2⟩, ⟨12, 3⟩]
      (List.Chain.cons (by decide)
        (List.Chain.cons (by decide) List.Chain.nil))).trans (by decide)⟩

/-- Claim C4 is false of the code: besides the debounced wrappers registered
on lines 249-250, lines 57 and 165 register `updateActiveNavLink` and
`updateHeader` directly on the scroll event, so a burst of three scroll
events at 0, 1, 2 ms yields four invocations of `updateActiveNavLink`
(three direct, one debounced), not at most one. -/
theorem scroll_direct_listeners_counterexample :
    ¬ scrollInvocationCount ScrollFn.updateActiveNavLink [0, 1, 2] ≤ 1 := by
  decide

theorem chain_map_call (t : Nat) (ts : List Nat)
    (h : List.Chain (fun a b => b ≤ a + 10) t ts) :
    List.Chain (fun a b : Call Unit => b.time ≤ a.time + 10) ⟨t, ()⟩
      (ts.map fun x => (⟨x, ()⟩ : Call Unit)) := by
  induction ts generalizing t with
  | nil => exact List.Chain.nil
  | cons x xs ih =>
      rcases List.chain_cons.mp h with ⟨h1, h2⟩
      exact List.Chain.cons h1 (ih x h2)

/-- Claim C4 amended: scroll events reach `updateActiveNavLink` and
`updateHeader` both directly (listeners registered on lines 57 and 165) and
through `debounce(·, 10)` wrappers (lines 249-250), so a burst of `N` scroll
events each within 10 ms of the previous produces `N` direct invocations
plus exactly one trailing debounced invocation of each function. -/
theorem scroll_burst_invocations (fn : ScrollFn) (t : Nat) (ts : List Nat)
    (hburst : List.Chain (fun a b => b ≤ a + 10) t ts) :
    scrollInvocationCount fn (t :: ts) = (t :: ts).length + 1 := by
  have hdeb : (debounceRuns 10
      ((t :: ts).map fun x => (⟨x, ()⟩ : Call Unit))).length = 1 := by
    rw [List.map_cons, debounceRuns_chain 10 _ _ (chain_map_call t ts hburst)]
    rfl
  have hform : scrollInvocationCount fn (t :: ts) =
      (t :: ts).length +
        ((debounceRuns 10
          ((t :: ts).map fun x => (⟨x, ()⟩ : Call Unit))).length + 0) := by
    cases fn <;> rfl
  rw [hform, hdeb]

theorem scroll_burst_invocations_witness :
    List.Chain (fun a b => b ≤ a + 10) 0 [1, 2] ∧
      scrollInvocationCount ScrollFn.updateActiveNavLink [0, 1, 2] =
        ([0, 1, 2] : List Nat).length + 1 :=
  ⟨List.Chain.cons (by decide) (List.Chain.cons (by decide) List.Chain.nil),
    scroll_burst_invocations ScrollFn.updateActiveNavLink 0 [1, 2]
      (List.Chain.cons (by decide)
        (List.Chain.cons (by decide) List.Chain.nil))⟩

theorem observer_visible_mono (s : RevealTarget)
    (events : List IntersectionEntry) (h : s.visible = true) :
    (events.foldl observerStep s).visible = true := by
  induction events generalizing s with
  | nil => exact h
  | cons e es ih =>
      simp only [List.foldl_cons]
      apply ih
      unfold observerStep
      by_cases he : e.isIntersecting
      · rw [if_pos he]
      · rw [if_neg he]
        exact h

/-- Claim C7: once the observer callback has processed an intersecting entry
for an element (delivered by the browser per the 0.1 threshold and -50px
bottom margin), the element's `visible` class is set and no later entry
sequence of any kind — including entries for the element leaving the
viewport — ever removes it. -/
theorem reveal_is_permanent (s : RevealTarget)
    (events : List IntersectionEntry) :
    (events.foldl observerStep (observerStep s ⟨true⟩)).visible = true :=
  observer_visible_mono _ events (by simp [observerStep])

/-- Claim C8: an outside click forces the mobile menu closed when open and
is a no-op when already closed; a click on an in-menu nav link forces it
closed regardless of state (its close listener, line 89, runs after the
link's own smooth-scroll handler, registered first at line 11); the event
sequence [toggle, outside click, toggle, nav-link click] is in the closed
state after each outside or link interaction. -/
theorem mobile_menu_forces_closed (s : MenuState) :
    menuStep s MenuEvent.outsideClick = menuClosed ∧
      (s = menuClosed → menuStep s MenuEvent.outsideClick = s) ∧
      menuStep s MenuEvent.navLinkClick = menuClosed ∧
      [MenuEvent.toggleClick, MenuEvent.outsideClick].foldl menuStep
        menuClosed = menuClosed ∧
      [MenuEvent.toggleClick, MenuEvent.outsideClick, MenuEvent.toggleClick,
        MenuEvent.navLinkClick].foldl menuStep menuClosed = menuClosed := by
  refine ⟨rfl, ?_, rfl, rfl, rfl⟩
  intro hs
  rw [hs]
  rfl

theorem mobile_menu_forces_closed_witness :
    menuClosed = menuClosed ∧
      menuStep menuClosed MenuEvent.outsideClick = menuClosed :=
  ⟨rfl, (mobile_menu_forces_closed menuClosed).2.1 rfl⟩

/-- Claim C9: with `deltaY = touchStartY - touchY`, a touch-move at
`scrollY = 0` with `deltaY < 0` suppresses default behavior; the same
`deltaY < 0` at any `scrollY > 0` does not; and for `deltaY > 0` default is
suppressed exactly when `innerHeight + scrollY ≥ document.body.offsetHeight`
(viewport bottom at the document end). -/
theorem touch_overscroll_guard (scrollY innerHeight bodyOffsetHeight : Nat)
    (touchStartY touchY : Int) :
    (scrollY = 0 → touchStartY - touchY < 0 →
      touchMovePrevents scrollY innerHeight bodyOffsetHeight touchStartY
        touchY = true) ∧
      (0 < scrollY → touchStartY - touchY < 0 →
        touchMovePrevents scrollY innerHeight bodyOffsetHeight touchStartY
          touchY = false) ∧
      (0 < touchStartY - touchY →
        (touchMovePrevents scrollY innerHeight bodyOffsetHeight touchStartY
            touchY = true ↔ innerHeight + scrollY ≥ bodyOffsetHeight)) := by
  refine ⟨?_, ?_, ?_⟩
  · intro h0 hd
    simp [touchMovePrevents]
    omega
  · intro h0 hd
    simp [touchMovePrevents]
    omega
  · intro hd
    simp [touchMovePrevents]
    omega

theorem touch_overscroll_guard_witness :
    (0 : Nat) = 0 ∧ (3 : Int) - 5 < 0 ∧
      touchMovePrevents 0 600 2000 3 5 = true :=
  ⟨rfl, by decide, (touch_overscroll_guard 0 600 2000 3 5).1 rfl (by decide)⟩

end Scripts
